import Mathlib

/-!
# Verification of the GearVRf draw-call batching engine (`batch.cpp`)

Shallow embedding of `src/GVRf/Framework/framework/src/main/jni/engine/renderer/batch.cpp`
(class `gvr::Batch`).  Geometry values (vec3 / vec2 positions, normals, texture
coordinates) and 4x4 model matrices are opaque tokens modelled as `Nat`; what the
claims are about is which tokens land in which buffer, in which order, together
with the integer counters.  Mesh indices are C++ `unsigned short`, so every value
stored in the merged index buffer is reduced mod 2^16, exactly as the source's
`unsigned short index = indices[i]; index += index_offset_;` does.

Renderables (`RenderData*`) are identified by a numeric id `rid`; the mutable
scene objects live in a `World` (a list of `RenderData` records, looked up by
id), which models the heap the C++ pointers point into.  `Batch::add` receives
the pointee directly and returns its updated value; `setupMesh` /
`isRenderModified` / `regenerateMeshData` read and write renderables through the
`World`.
-/

namespace GVRfBatch

/-- `Material::ShaderType::TEXTURE_SHADER`, the only mergeable shading technique. -/
def TEXTURE_SHADER : Nat := 0

/-- A `Mesh`: vertex positions, normals, the named vec2 attribute `a_texcoord`,
the `unsigned short` index list, and the named float attribute `a_matrix_index`
(only ever populated on the batch's merged mesh). -/
structure Mesh where
  vertices : List Nat
  normals : List Nat
  tex_coords : List Nat
  indices : List Nat
  matrix_indices : List Nat
deriving DecidableEq, Repr

/-- The default-constructed (empty) `Mesh`. -/
def Mesh.empty : Mesh := ⟨[], [], [], [], []⟩

/-- A `RenderData` record: the renderable's mesh, its mutable batching / enabled
flags, its owner object's enabled flag and (nullable) transform, the shader type
of each render pass, the pass-0 material (as a token), the `renderdata_dirty`
and owner-transform-dirty flags, and the batch back-reference (modelled as a
`Bool` marker: `true` while the renderable points at a batch). -/
structure RenderData where
  rid : Nat
  mesh : Mesh
  batching : Bool
  enabled : Bool
  owner_enabled : Bool
  owner_transform : Option Nat
  pass_shaders : List Nat
  material : Nat
  renderdata_dirty : Bool
  transform_dirty : Bool
  batch_ref : Bool
deriving DecidableEq, Repr

/-- The heap of scene renderables, looked up by `rid`. -/
abbrev World := List RenderData

/-- Dereference a `RenderData*` by id (first record with that id). -/
def World.find (w : World) (i : Nat) : Option RenderData :=
  w.find? (fun r => r.rid == i)

/-- Totalised dereference: in C++ the pointer is always valid; a missing id
yields an inert, disabled record so that every definition stays total. -/
def defaultRD : RenderData :=
  ⟨0, Mesh.empty, false, false, false, none, [], 0, false, false, false⟩

def lookupRD (w : World) (i : Nat) : RenderData :=
  (World.find w i).getD defaultRD

/-- `render_data->enabled() && render_data->owner_object()->enabled()` for the
member with id `i` (a dangling id counts as disabled). -/
def enabledIn (w : World) (i : Nat) : Bool :=
  match World.find w i with
  | some rd => rd.enabled && rd.owner_enabled
  | none => false

/-- Eviction write-back of `Batch::isRenderModified`:
`(*it)->set_batching(false); (*it)->setBatchNull();`. -/
def evictRD (w : World) (i : Nat) : World :=
  w.map (fun r => if r.rid = i then { r with batching := false, batch_ref := false } else r)

/-- `std::set<RenderData*>` insertion, modelled as sorted insertion of ids
(iteration order of the C++ set is the fixed pointer order; sorted ids give the
same determinism). -/
def insertSorted (i : Nat) : List Nat → List Nat
  | [] => [i]
  | j :: rest =>
    if i < j then i :: j :: rest
    else if i = j then j :: rest
    else j :: insertSorted i rest

/-- `std::unordered_map` `operator[]=`: overwrite the binding for `k` if
present, append it otherwise. -/
def mapInsert (k v : Nat) : List (Nat × Nat) → List (Nat × Nat)
  | [] => [(k, v)]
  | (k', v') :: rest =>
    if k = k' then (k, v) :: rest else (k', v') :: mapInsert k v rest

/-- The `Batch` state.  `freed` is not a C++ data member: it records that
`gRenderer->freeBatch(this)` was invoked (the pool-owner notification), so that
theorems can talk about the external effect of `resetBatch`. -/
structure Batch where
  vertex_limit : Nat
  indices_limit : Nat
  draw_count : Nat
  vertex_count : Nat
  index_count : Nat
  index_offset : Nat
  vertices : List Nat
  normals : List Nat
  tex_coords : List Nat
  matrix_indices : List Nat
  indices : List Nat
  matrices : List Nat
  matrix_index_map : List (Nat × Nat)
  render_data_set : List Nat
  renderdata : Option RenderData
  material : Option Nat
  mesh : Mesh
  mesh_init : Bool
  not_batched : Bool
  batch_dirty : Bool
  freed : Bool
deriving DecidableEq, Repr

/-- `Batch::Batch(int no_vertices, int no_indices)`: all counters zero, all
buffers empty, no owned prototype, flags down.  (`material_` is left
uninitialised by the constructor; `none` models "never assigned".) -/
def Batch.mkBatch (no_vertices no_indices : Nat) : Batch where
  vertex_limit := no_vertices
  indices_limit := no_indices
  draw_count := 0
  vertex_count := 0
  index_count := 0
  index_offset := 0
  vertices := []
  normals := []
  tex_coords := []
  matrix_indices := []
  indices := []
  matrices := []
  matrix_index_map := []
  render_data_set := []
  renderdata := none
  material := none
  mesh := Mesh.empty
  mesh_init := false
  not_batched := false
  batch_dirty := false
  freed := false

/-- `Batch::updateMesh(Mesh*)`: append the source mesh's vertices, per-vertex
`draw_count_` matrix-index tags and texture coordinates (`tex_cords[i]` is read
at the vertex index, totalised with `getD`), append normals only when the
source has any, append each index plus `index_offset_` truncated to
`unsigned short`, then bump the counters and mark the merged mesh stale. -/
def Batch.updateMesh (b : Batch) (m : Mesh) : Batch :=
  { b with
    vertices := b.vertices ++ m.vertices
    matrix_indices := b.matrix_indices ++ List.replicate m.vertices.length b.draw_count
    tex_coords := b.tex_coords ++ (List.range m.vertices.length).map (fun i => m.tex_coords.getD i 0)
    normals := b.normals ++ (if m.normals.length > 0 then m.normals else [])
    index_count := b.index_count + m.indices.length
    indices := b.indices ++ m.indices.map (fun i => (i + b.index_offset) % 65536)
    vertex_count := b.vertex_count + m.vertices.length
    index_offset := b.index_offset + m.vertices.length
    draw_count := b.draw_count + 1
    mesh_init := false }

/-- `Batch::add(RenderData*)`.  Returns the updated batch, the updated pointee
(`set_renderdata_dirty(false)`, `setTransformUnDirty`, possibly
`set_batching(false)`), and the C++ return value. -/
def Batch.add (b : Batch) (rd : RenderData) : Batch × RenderData × Bool :=
  -- material_ = render_data->pass(0)->material();
  let b1 := { b with material := some rd.material }
  -- model matrix: owner transform if present, default-constructed otherwise
  let model_matrix := rd.owner_transform.getD 0
  -- render_data->set_renderdata_dirty(false); ... owner_object()->setTransformUnDirty();
  -- (mutates only these two flags; all other reads of `rd` below are unaffected)
  let rd' := { rd with renderdata_dirty := false, transform_dirty := false }
  -- matrix_index_map_[render_data] = draw_count_; matrices_.push_back(model_matrix);
  let b2 := { b1 with
    matrix_index_map := mapInsert rd.rid b.draw_count b.matrix_index_map
    matrices := b.matrices ++ [model_matrix] }
  if !rd.batching then
    ({ b2 with render_data_set := insertSorted rd.rid b.render_data_set, not_batched := true },
      rd', true)
  else if rd.pass_shaders.any (fun s => s != TEXTURE_SHADER) then
    ({ b2 with render_data_set := insertSorted rd.rid b.render_data_set }, rd', true)
  else if rd.mesh.indices.length = 0 ∨ rd.mesh.indices.length + b.index_count > b.indices_limit then
    if b.draw_count > 0 then
      (b2, rd', false)
    else
      ({ b2 with render_data_set := insertSorted rd.rid b.render_data_set, not_batched := true },
        { rd' with batching := false }, true)
  else
    let b3 :=
      if b.draw_count = 0 then
        if b.renderdata = none then
          { b2 with renderdata := some { rd' with batching := true } }
        else b2
      else b2
    ({ b3 with render_data_set := insertSorted rd.rid b.render_data_set }.updateMesh rd.mesh,
      rd', true)

/-- `Batch::clearData()`: zero the counters and empty every buffer; the tracking
set, the owned prototype, `material_`, `mesh_` and `not_batched_` are *not*
touched. -/
def Batch.clearData (b : Batch) : Batch :=
  { b with
    vertex_count := 0
    index_count := 0
    index_offset := 0
    draw_count := 0
    matrix_index_map := []
    matrix_indices := []
    matrices := []
    tex_coords := []
    vertices := []
    normals := []
    indices := []
    mesh_init := false
    batch_dirty := false }

/-- `Batch::isRenderModified()`: erase every disabled member from the tracking
set, clearing its batching flag and batch back-reference; report whether any
eviction happened. -/
def Batch.isRenderModified (b : Batch) (w : World) : Batch × World × Bool :=
  let evicted := b.render_data_set.filter (fun i => !(enabledIn w i))
  let survivors := b.render_data_set.filter (fun i => enabledIn w i)
  ({ b with render_data_set := survivors }, evicted.foldl evictRD w, !evicted.isEmpty)

/-- `Batch::resetBatch()`: clear the data, destroy the owned prototype, notify
the pool owner (`gRenderer->freeBatch(this)`, recorded in `freed`). -/
def Batch.resetBatch (b : Batch) : Batch :=
  { b.clearData with renderdata := none, freed := true }

/-- `Batch::meshInit()`: rebuild the renderer-facing merged mesh from the
buffers and attach it to the owned prototype's render state. -/
def Batch.meshInit (b : Batch) : Batch :=
  let m : Mesh := ⟨b.vertices, b.normals, b.tex_coords, b.indices, b.matrix_indices⟩
  { b with
    mesh_init := true
    mesh := m
    renderdata := b.renderdata.map (fun rd => { rd with mesh := m }) }

/-- One iteration of the `Batch::regenerateMeshData()` loop: re-resolve the
member's transform, record matrix and map entry at the new draw slot, and
re-merge its mesh. -/
def Batch.regenStep (w : World) (b : Batch) (i : Nat) : Batch :=
  let rd := lookupRD w i
  let model_matrix := rd.owner_transform.getD 0
  let b := { b with
    matrix_index_map := mapInsert i b.draw_count b.matrix_index_map
    matrices := b.matrices ++ [model_matrix] }
  b.updateMesh rd.mesh

/-- `Batch::regenerateMeshData()`: clear the buffers, then re-merge every
member of the tracking set in order. -/
def Batch.regenerateMeshData (b : Batch) (w : World) : Batch :=
  b.render_data_set.foldl (Batch.regenStep w) b.clearData

/-- Tail of `Batch::setupMesh` (batch.cpp:191-194): clear the dirty flag and
lazily (re)build the merged mesh. -/
def Batch.setupTail (b : Batch) : Batch :=
  let b := { b with batch_dirty := false }
  if !b.mesh_init then b.meshInit else b

/-- `Batch::setupMesh(bool batch_dirty)`: evict disabled members; if the
tracking set became empty, reset the batch and report inactive; otherwise
regenerate on dirtiness or eviction, clear the dirty flag, lazily (re)build the
merged mesh, and report active. -/
def Batch.setupMesh (b : Batch) (w : World) (batch_dirty : Bool) : Batch × World × Bool :=
  let step := b.isRenderModified w
  let b := step.1
  let w := step.2.1
  let update_vbo := step.2.2
  if b.render_data_set.length = 0 then
    (b.resetBatch, w, false)
  else
    let b := if batch_dirty || update_vbo then b.regenerateMeshData w else b
    (b.setupTail, w, true)

/-- Fold a sequence of `add` calls over a batch, discarding the per-renderable
results (used to state sequence invariants). -/
def Batch.addSeq (b : Batch) : List RenderData → Batch
  | [] => b
  | rd :: rest => ((b.add rd).1).addSeq rest

/-- The conditions under which `Batch::add` takes the merge path (step 7 of the
spec): batching-eligible, every pass a texture-shader pass, a nonempty index
list that still fits under the index limit. -/
def mergesInto (b : Batch) (rd : RenderData) : Prop :=
  rd.batching = true ∧ (∀ s ∈ rd.pass_shaders, s = TEXTURE_SHADER) ∧
    rd.mesh.indices.length ≠ 0 ∧
    rd.mesh.indices.length + b.index_count ≤ b.indices_limit

instance (b : Batch) (rd : RenderData) : Decidable (mergesInto b rd) := by
  unfold mergesInto; infer_instance

/-- Every `add` of the sequence takes the merge path from the state it is
offered to. -/
def allMerge : Batch → List RenderData → Prop
  | _, [] => True
  | b, rd :: rest => mergesInto b rd ∧ allMerge (b.add rd).1 rest

instance : (b : Batch) → (rds : List RenderData) → Decidable (allMerge b rds)
  | _, [] => .isTrue trivial
  | b, rd :: rest =>
    have : Decidable (allMerge (b.add rd).1 rest) := instDecidableAllMerge _ _
    instDecidableAnd

/- ## General lemmas about `add` -/

lemma any_ne_texture_eq_false {l : List Nat} (h : ∀ s ∈ l, s = TEXTURE_SHADER) :
    l.any (fun s => s != TEXTURE_SHADER) = false := by
  simp only [List.any_eq_false, bne_iff_ne, ne_eq, Decidable.not_not]
  exact h

/-- Enumeration of the result of `Batch::add` in the merge branch. -/
lemma add_merge_fields (b : Batch) (rd : RenderData) (h : mergesInto b rd) :
    (b.add rd).1 =
      (Batch.updateMesh
        { b with
          material := some rd.material
          matrix_index_map := mapInsert rd.rid b.draw_count b.matrix_index_map
          matrices := b.matrices ++ [rd.owner_transform.getD 0]
          renderdata :=
            if b.draw_count = 0 ∧ b.renderdata = none then
              some { rd with renderdata_dirty := false, transform_dirty := false,
                             batching := true }
            else b.renderdata
          render_data_set := insertSorted rd.rid b.render_data_set }
        rd.mesh) ∧
      (b.add rd).2.2 = true := by
  obtain ⟨h1, h2, h3, h4⟩ := h
  simp only [Batch.add, h1, Bool.not_true, Bool.false_eq_true, if_false,
    any_ne_texture_eq_false h2, Bool.true_eq_false]
  rw [if_neg (by omega)]
  by_cases hd : b.draw_count = 0
  · by_cases hr : b.renderdata = none
    · simp [hd, hr]
    · simp [hd, hr]
  · simp [hd]

/-- In the non-merge branches, `add` does not change the geometry buffers or
counters. -/
lemma add_nonmerge_fields (b : Batch) (rd : RenderData) (h : ¬ mergesInto b rd) :
    ((b.add rd).1).vertices = b.vertices ∧
    ((b.add rd).1).normals = b.normals ∧
    ((b.add rd).1).tex_coords = b.tex_coords ∧
    ((b.add rd).1).matrix_indices = b.matrix_indices ∧
    ((b.add rd).1).indices = b.indices ∧
    ((b.add rd).1).vertex_count = b.vertex_count ∧
    ((b.add rd).1).index_count = b.index_count ∧
    ((b.add rd).1).index_offset = b.index_offset ∧
    ((b.add rd).1).draw_count = b.draw_count ∧
    ((b.add rd).1).renderdata = b.renderdata := by
  unfold mergesInto at h
  push_neg at h
  simp only [Batch.add]
  by_cases h1 : rd.batching
  · simp only [h1, Bool.not_true, Bool.false_eq_true, if_false]
    by_cases h2 : rd.pass_shaders.any (fun s => s != TEXTURE_SHADER)
    · simp [h2]
    · have h2' : ∀ s ∈ rd.pass_shaders, s = TEXTURE_SHADER := by
        simpa only [List.any_eq_false, bne_iff_ne, ne_eq, Decidable.not_not] using
          (Bool.not_eq_true _).mp h2
      have hc : rd.mesh.indices.length = 0 ∨
          rd.mesh.indices.length + b.index_count > b.indices_limit := by
        rcases Nat.eq_zero_or_pos rd.mesh.indices.length with h0 | hpos
        · exact Or.inl h0
        · right
          have := h h1 h2' (by omega)
          omega
      simp only [h2, Bool.false_eq_true, if_false]
      rw [if_pos hc]
      by_cases hd : b.draw_count > 0
      · simp [hd]
      · simp [hd]
  · simp [h1]

/-- The capacity limits are never modified by `add`. -/
lemma add_limits (b : Batch) (rd : RenderData) :
    ((b.add rd).1).indices_limit = b.indices_limit ∧
    ((b.add rd).1).vertex_limit = b.vertex_limit := by
  simp only [Batch.add]
  split_ifs <;> simp [Batch.updateMesh]

/-- `add` preserves `index_count ≤ indices_limit`. -/
lemma add_index_count_le (b : Batch) (rd : RenderData)
    (h : b.index_count ≤ b.indices_limit) :
    ((b.add rd).1).index_count ≤ ((b.add rd).1).indices_limit := by
  rw [(add_limits b rd).1]
  by_cases hm : mergesInto b rd
  · rw [(add_merge_fields b rd hm).1]
    simp only [Batch.updateMesh]
    have := hm.2.2.2
    omega
  · rw [(add_nonmerge_fields b rd hm).2.2.2.2.2.2.1]
    exact h

lemma addSeq_index_count_le (b : Batch) (rds : List RenderData)
    (h : b.index_count ≤ b.indices_limit) :
    (b.addSeq rds).index_count ≤ (b.addSeq rds).indices_limit := by
  induction rds generalizing b with
  | nil => exact h
  | cons rd rest ih =>
    exact ih _ (add_index_count_le b rd h)

/- ## Claim C1 -/

/-- Mesh of the C1 counterexample renderable: two vertices but a single index. -/
def meshC1 : Mesh := ⟨[10, 11], [], [20, 21], [0], []⟩

/-- C1 counterexample renderable: batching-eligible, one texture pass. -/
def rdC1 : RenderData := ⟨1, meshC1, true, true, true, some 7, [TEXTURE_SHADER], 3, true, true, true⟩

/-- C1 is false as stated: on a batch constructed with `vertex_limit = 1`,
`indices_limit = 10`, a single successful `add` (which merges: one index fits
under the limit) leaves `vertex_count = 2 > 1 = vertex_limit`.  `Batch::add`
checks only the index limit, never the vertex limit. -/
theorem c1_vertex_limit_violated :
    ((Batch.mkBatch 1 10).add rdC1).2.2 = true ∧
    ((Batch.mkBatch 1 10).add rdC1).1.vertex_count >
      ((Batch.mkBatch 1 10).add rdC1).1.vertex_limit := by
  decide

/-- C1 (amended): for every sequence of `add` calls on a batch whose
`index_count` is within `indices_limit` (in particular a freshly constructed
batch), `index_count ≤ indices_limit` holds after every call; no bound on
`vertex_count` is enforced. -/
theorem c1_index_count_le_limit (b : Batch) (rds : List RenderData)
    (h : b.index_count ≤ b.indices_limit) :
    (b.addSeq rds).index_count ≤ (b.addSeq rds).indices_limit :=
  addSeq_index_count_le b rds h

/-- C1 witness: concrete two-renderable run under the amended theorem. -/
theorem c1_index_count_le_limit_witness :
    ((Batch.mkBatch 1 10).addSeq [rdC1, rdC1]).index_count ≤
      ((Batch.mkBatch 1 10).addSeq [rdC1, rdC1]).indices_limit :=
  c1_index_count_le_limit (Batch.mkBatch 1 10) [rdC1, rdC1] (by decide)

/- ## Claim C2 -/

/-- Running totals of a merge-only `add` sequence: `draw_count` and
`matrices` advance in lockstep, and the matrix-index tags appended during the
k-th merge all carry the draw slot current at that merge. -/
lemma addSeq_merge_spec (rds : List RenderData) (b : Batch) (h : allMerge b rds) :
    (b.addSeq rds).draw_count = b.draw_count + rds.length ∧
    (b.addSeq rds).matrices.length = b.matrices.length + rds.length ∧
    (b.addSeq rds).matrix_indices =
      b.matrix_indices ++
        ((rds.enumFrom b.draw_count).map
          (fun p => List.replicate p.2.mesh.vertices.length p.1)).flatten := by
  induction rds generalizing b with
  | nil => simp [Batch.addSeq]
  | cons rd rest ih =>
    obtain ⟨hm, hrest⟩ := h
    have hb := (add_merge_fields b rd hm).1
    have ih' := ih ((b.add rd).1) hrest
    rw [Batch.addSeq] at *
    refine ⟨?_, ?_, ?_⟩
    · rw [ih'.1, hb]
      simp [Batch.updateMesh]
      omega
    · rw [ih'.2.1, hb]
      simp [Batch.updateMesh]
      omega
    · rw [ih'.2.2, hb]
      simp only [Batch.updateMesh, List.enumFrom_cons, List.map_cons, List.flatten_cons,
        List.append_assoc]

/-- C2 counterexample renderable: opts out of batching. -/
def rdC2opt : RenderData :=
  ⟨2, ⟨[10, 11], [], [20, 21], [0, 1], []⟩, false, true, true, some 7, [TEXTURE_SHADER], 3,
    true, true, true⟩

/-- C2 is false as stated: adding a single renderable that opts out of batching
(a successful `add`) pushes its model matrix onto `matrices` without
incrementing `draw_count`, so `len(matrices) = 1 ≠ 0 = draw_count`. -/
theorem c2_unbatched_add_breaks_matrices :
    ((Batch.mkBatch 10 10).add rdC2opt).2.2 = true ∧
    ((Batch.mkBatch 10 10).add rdC2opt).1.matrices.length ≠
      ((Batch.mkBatch 10 10).add rdC2opt).1.draw_count := by
  decide

/-- C2 (amended): after any sequence of `add` calls that all take the merge
path, `len(matrices) = draw_count`, and the matrix-index tag written for every
vertex appended during the k-th merge (1-based) equals `k-1`: the whole tag
buffer is the concatenation, over the 0-based enumeration of the merged
renderables, of `vertex-count`-many copies of the slot number. -/
theorem c2_matrices_and_tags (v n : Nat) (rds : List RenderData)
    (h : allMerge (Batch.mkBatch v n) rds) :
    ((Batch.mkBatch v n).addSeq rds).matrices.length =
      ((Batch.mkBatch v n).addSeq rds).draw_count ∧
    ((Batch.mkBatch v n).addSeq rds).matrix_indices =
      (rds.enum.map (fun p => List.replicate p.2.mesh.vertices.length p.1)).flatten := by
  obtain ⟨h1, h2, h3⟩ := addSeq_merge_spec rds (Batch.mkBatch v n) h
  refine ⟨?_, ?_⟩
  · rw [h1, h2]
    simp [Batch.mkBatch]
  · rw [h3]
    simp [Batch.mkBatch, List.enum]

/-- C2 witness renderable: merges with three vertices and two indices. -/
def rdC2a : RenderData :=
  ⟨3, ⟨[30, 31, 32], [], [40, 41, 42], [0, 1], []⟩, true, true, true, some 8,
    [TEXTURE_SHADER], 4, true, true, true⟩

/-- C2 witness: a concrete two-merge run under the amended theorem. -/
theorem c2_matrices_and_tags_witness :
    ((Batch.mkBatch 100 100).addSeq [rdC2a, rdC2a]).matrices.length =
      ((Batch.mkBatch 100 100).addSeq [rdC2a, rdC2a]).draw_count ∧
    ((Batch.mkBatch 100 100).addSeq [rdC2a, rdC2a]).matrix_indices =
      (([rdC2a, rdC2a].enum).map (fun p => List.replicate p.2.mesh.vertices.length p.1)).flatten :=
  c2_matrices_and_tags 100 100 [rdC2a, rdC2a] (by decide)

/- ## Claim C4 -/

/-- C4: `add` returns failure exactly when the renderable is batching-eligible,
all its passes use the texture shader, its index list is empty or would
overflow `indices_limit`, and the batch already holds a merged member
(`draw_count > 0`); under the same capacity condition with `draw_count = 0` the
renderable is accepted, forced unbatched (`set_batching(false)`), tracked, and
`draw_count` is unchanged. -/
theorem c4_reject_characterisation (b : Batch) (rd : RenderData) :
    ((b.add rd).2.2 = false ↔
      rd.batching = true ∧ (∀ s ∈ rd.pass_shaders, s = TEXTURE_SHADER) ∧
        (rd.mesh.indices.length = 0 ∨
          rd.mesh.indices.length + b.index_count > b.indices_limit) ∧
        0 < b.draw_count) ∧
    (rd.batching = true → (∀ s ∈ rd.pass_shaders, s = TEXTURE_SHADER) →
      (rd.mesh.indices.length = 0 ∨
        rd.mesh.indices.length + b.index_count > b.indices_limit) →
      b.draw_count = 0 →
      (b.add rd).2.2 = true ∧ ((b.add rd).2.1).batching = false ∧
        ((b.add rd).1).render_data_set = insertSorted rd.rid b.render_data_set ∧
        ((b.add rd).1).not_batched = true ∧
        ((b.add rd).1).draw_count = b.draw_count) := by
  simp only [Batch.add]
  by_cases h1 : rd.batching
  · simp only [h1, Bool.not_true, Bool.false_eq_true, if_false]
    by_cases h2 : rd.pass_shaders.any (fun s => s != TEXTURE_SHADER) = true
    · have h2' : ¬ ∀ s ∈ rd.pass_shaders, s = TEXTURE_SHADER := by
        simp only [List.any_eq_true, bne_iff_ne, ne_eq] at h2
        obtain ⟨s, hs, hne⟩ := h2
        exact fun hall => hne (hall s hs)
      rw [if_pos h2]
      exact ⟨⟨fun h => absurd h (by simp), fun hR => absurd hR.2.1 h2'⟩,
        fun _ hall _ _ => absurd hall h2'⟩
    · have h2' : ∀ s ∈ rd.pass_shaders, s = TEXTURE_SHADER := by
        simpa only [List.any_eq_false, bne_iff_ne, ne_eq, Decidable.not_not] using
          (Bool.not_eq_true _).mp h2
      rw [if_neg h2]
      by_cases hc : rd.mesh.indices.length = 0 ∨
          rd.mesh.indices.length + b.index_count > b.indices_limit
      · rw [if_pos hc]
        by_cases hd : b.draw_count > 0
        · rw [if_pos hd]
          exact ⟨⟨fun _ => ⟨by simp, h2', hc, hd⟩, fun _ => rfl⟩,
            fun _ _ _ h0 => absurd h0 (by omega)⟩
        · rw [if_neg hd]
          exact ⟨⟨fun h => absurd h (by simp), fun hR => absurd hR.2.2.2 hd⟩,
            fun _ _ _ _ => ⟨rfl, rfl, rfl, rfl, rfl⟩⟩
      · rw [if_neg hc]
        split_ifs with hd0 hr
        all_goals
          exact ⟨⟨fun h => absurd h (by simp), fun hR => absurd hR.2.2.1 hc⟩,
            fun _ _ h3 _ => absurd h3 hc⟩
  · have h1' : (!rd.batching) = true := by simp [h1]
    rw [if_pos h1']
    exact ⟨⟨fun h => absurd h (by simp), fun hR => absurd hR.1 (by simpa using h1)⟩,
      fun hb _ _ _ => absurd hb (by simpa using h1)⟩

/-- C4 witness: a concrete rejection (capacity exceeded with a merged member)
and a concrete forced-unbatched acceptance on an empty batch. -/
theorem c4_reject_characterisation_witness :
    ((((Batch.mkBatch 6 3).add rdC2a).1.add rdC2a).2.2 = false) ∧
    ((Batch.mkBatch 6 1).add rdC2a).2.2 = true ∧
    (((Batch.mkBatch 6 1).add rdC2a).2.1).batching = false ∧
    (((Batch.mkBatch 6 1).add rdC2a).1).draw_count = (Batch.mkBatch 6 1).draw_count := by
  have h1 := (c4_reject_characterisation ((Batch.mkBatch 6 3).add rdC2a).1 rdC2a).1
  have h2 := (c4_reject_characterisation (Batch.mkBatch 6 1) rdC2a).2
    (by decide) (by decide) (by decide) (by decide)
  exact ⟨h1.mpr (by decide), h2.1, h2.2.1, h2.2.2.2.2⟩

/- ## Claim C5 -/

/-- C5: when `add` rejects a renderable, every merge buffer (vertices, indices,
normals, texcoords, matrix-index tags), every counter (`vertex_count`,
`index_count`, `index_offset`, `draw_count`), the tracking set and the owned
prototype are unchanged; only the matrices sequence and the
`matrix_index_map` entry (the step-1/2 transform bookkeeping) are touched. -/
theorem c5_reject_leaves_merge_state (b : Batch) (rd : RenderData)
    (h : (b.add rd).2.2 = false) :
    ((b.add rd).1).vertices = b.vertices ∧
    ((b.add rd).1).normals = b.normals ∧
    ((b.add rd).1).tex_coords = b.tex_coords ∧
    ((b.add rd).1).matrix_indices = b.matrix_indices ∧
    ((b.add rd).1).indices = b.indices ∧
    ((b.add rd).1).vertex_count = b.vertex_count ∧
    ((b.add rd).1).index_count = b.index_count ∧
    ((b.add rd).1).index_offset = b.index_offset ∧
    ((b.add rd).1).draw_count = b.draw_count ∧
    ((b.add rd).1).render_data_set = b.render_data_set ∧
    ((b.add rd).1).renderdata = b.renderdata ∧
    ((b.add rd).1).mesh_init = b.mesh_init ∧
    ((b.add rd).1).not_batched = b.not_batched ∧
    ((b.add rd).1).matrices = b.matrices ++ [rd.owner_transform.getD 0] ∧
    ((b.add rd).1).matrix_index_map = mapInsert rd.rid b.draw_count b.matrix_index_map := by
  have he : (b.add rd).1 =
      { b with
        material := some rd.material
        matrix_index_map := mapInsert rd.rid b.draw_count b.matrix_index_map
        matrices := b.matrices ++ [rd.owner_transform.getD 0] } := by
    revert h
    simp only [Batch.add]
    split_ifs with h1 h2 h3 h4 h5 h6 <;> intro h
    · exact absurd h (by simp)
    · exact absurd h (by simp)
    · rfl
    · exact absurd h (by simp)
    · exact absurd h (by simp)
    · exact absurd h (by simp)
    · exact absurd h (by simp)
  rw [he]
  exact ⟨rfl, rfl, rfl, rfl, rfl, rfl, rfl, rfl, rfl, rfl, rfl, rfl, rfl, rfl, rfl⟩

/-- C5 witness: concrete rejection scenario (second oversized renderable on a
batch with one merged member). -/
theorem c5_reject_leaves_merge_state_witness :
    ((((Batch.mkBatch 6 3).add rdC2a).1.add rdC2a).1).vertices =
      (((Batch.mkBatch 6 3).add rdC2a).1).vertices ∧
    ((((Batch.mkBatch 6 3).add rdC2a).1.add rdC2a).1).draw_count =
      (((Batch.mkBatch 6 3).add rdC2a).1).draw_count :=
  ⟨(c5_reject_leaves_merge_state ((Batch.mkBatch 6 3).add rdC2a).1 rdC2a (by decide)).1,
   (c5_reject_leaves_merge_state ((Batch.mkBatch 6 3).add rdC2a).1 rdC2a
      (by decide)).2.2.2.2.2.2.2.2.1⟩

/- ## Claim C3 -/

/-- C3: if the batch's standing invariants hold (`index_offset = vertex_count`,
`len(vertices) = vertex_count`, every stored index `< vertex_count`) and the
source mesh is well-formed (every index `<` its own vertex count), then after
the merge every offset index stored in the index buffer is `< vertex_count`,
`vertex_count` equals the merged vertex-buffer length (so each index addresses
a valid merged vertex), and the standing invariants are re-established. -/
theorem c3_offset_indices_valid (b : Batch) (m : Mesh)
    (hoff : b.index_offset = b.vertex_count)
    (hlen : b.vertices.length = b.vertex_count)
    (hold : ∀ j ∈ b.indices, j < b.vertex_count)
    (hm : ∀ i ∈ m.indices, i < m.vertices.length) :
    (∀ j ∈ (b.updateMesh m).indices, j < (b.updateMesh m).vertex_count) ∧
    (b.updateMesh m).vertices.length = (b.updateMesh m).vertex_count ∧
    (b.updateMesh m).index_offset = (b.updateMesh m).vertex_count := by
  simp only [Batch.updateMesh]
  refine ⟨?_, by simp [hlen], by omega⟩
  intro j hj
  rcases List.mem_append.mp hj with hj | hj
  · have := hold j hj
    omega
  · obtain ⟨i, hi, rfl⟩ := List.mem_map.mp hj
    have hlt := hm i hi
    have hle : (i + b.index_offset) % 65536 ≤ i + b.index_offset := Nat.mod_le _ _
    omega

/-- C3 witness: merging a well-formed two-vertex mesh into a batch that already
holds one merged renderable. -/
theorem c3_offset_indices_valid_witness :
    (∀ j ∈ ((((Batch.mkBatch 6 9).add rdC2a).1).updateMesh rdC2a.mesh).indices,
      j < ((((Batch.mkBatch 6 9).add rdC2a).1).updateMesh rdC2a.mesh).vertex_count) ∧
    ((((Batch.mkBatch 6 9).add rdC2a).1).updateMesh rdC2a.mesh).vertices.length =
      ((((Batch.mkBatch 6 9).add rdC2a).1).updateMesh rdC2a.mesh).vertex_count ∧
    ((((Batch.mkBatch 6 9).add rdC2a).1).updateMesh rdC2a.mesh).index_offset =
      ((((Batch.mkBatch 6 9).add rdC2a).1).updateMesh rdC2a.mesh).vertex_count :=
  c3_offset_indices_valid (((Batch.mkBatch 6 9).add rdC2a).1) rdC2a.mesh
    (by decide) (by decide) (by decide) (by decide)

/- ## Claim C10 -/

/-- C10: each stored index is computed in 16-bit unsigned arithmetic: the merge
appends, for each source index `i`, exactly `(i + index_offset) mod 2^16` to
the index buffer, and whenever `i + index_offset` reaches `2^16` the stored
value is strictly below the intended offset index (it wraps around, no longer
addressing the intended vertex). -/
theorem c10_index_wraparound (b : Batch) (m : Mesh) :
    (b.updateMesh m).indices =
      b.indices ++ m.indices.map (fun i => (i + b.index_offset) % 65536) ∧
    (∀ i ∈ m.indices, 65536 ≤ i + b.index_offset →
      (i + b.index_offset) % 65536 < i + b.index_offset) := by
  refine ⟨rfl, ?_⟩
  intro i _ hge
  calc (i + b.index_offset) % 65536 < 65536 := Nat.mod_lt _ (by omega)
    _ ≤ i + b.index_offset := hge

/-- C10 witness: at `index_offset = 65530`, source index `10` is stored as `4`,
not `65540`. -/
theorem c10_index_wraparound_witness :
    ({ Batch.mkBatch 5 5 with index_offset := 65530 }.updateMesh
        ⟨[], [], [], [10], []⟩).indices =
      [(10 + 65530) % 65536] ∧
    (10 + 65530) % 65536 < 10 + 65530 := by
  have h := c10_index_wraparound { Batch.mkBatch 5 5 with index_offset := 65530 }
    ⟨[], [], [], [10], []⟩
  exact ⟨by rw [h.1]; decide, h.2 10 (by decide) (by decide)⟩

/- ## World / eviction lemmas -/

/-- Eviction only rewrites flags, so pointer lookup commutes with it. -/
lemma find_evictRD (w : World) (x i : Nat) :
    World.find (evictRD w x) i =
      (World.find w i).map
        (fun r => if r.rid = x then { r with batching := false, batch_ref := false } else r) := by
  unfold evictRD World.find
  rw [List.find?_map]
  have hp : ((fun r : RenderData => r.rid == i) ∘
      (fun r => if r.rid = x then { r with batching := false, batch_ref := false } else r)) =
      (fun r : RenderData => r.rid == i) := by
    funext r
    by_cases h : r.rid = x
    · simp [Function.comp, h]
    · simp [Function.comp, h]
  rw [hp]

lemma lookupRD_evictRD_mesh (w : World) (x i : Nat) :
    (lookupRD (evictRD w x) i).mesh = (lookupRD w i).mesh := by
  unfold lookupRD
  rw [find_evictRD]
  cases World.find w i with
  | none => rfl
  | some r =>
    by_cases h : r.rid = x
    · simp [h]
    · simp [h]

lemma enabledIn_evictRD (w : World) (x i : Nat) :
    enabledIn (evictRD w x) i = enabledIn w i := by
  unfold enabledIn
  rw [find_evictRD]
  cases World.find w i with
  | none => rfl
  | some r =>
    by_cases h : r.rid = x
    · simp [h]
    · simp [h]

lemma enabledIn_fold_evict (E : List Nat) (w : World) (i : Nat) :
    enabledIn (E.foldl evictRD w) i = enabledIn w i := by
  induction E generalizing w with
  | nil => rfl
  | cons x E ih =>
    rw [List.foldl_cons, ih, enabledIn_evictRD]

lemma lookupRD_fold_evict_mesh (E : List Nat) (w : World) (i : Nat) :
    (lookupRD (E.foldl evictRD w) i).mesh = (lookupRD w i).mesh := by
  induction E generalizing w with
  | nil => rfl
  | cons x E ih =>
    rw [List.foldl_cons, ih, lookupRD_evictRD_mesh]

/-- Evicting a member clears its batching flag and batch back-reference. -/
lemma evictRD_flags_self (w : World) (x : Nat) :
    (lookupRD (evictRD w x) x).batching = false ∧
    (lookupRD (evictRD w x) x).batch_ref = false := by
  unfold lookupRD
  rw [find_evictRD]
  cases hf : World.find w x with
  | none => exact ⟨rfl, rfl⟩
  | some r =>
    have hrx : r.rid = x := by
      have := List.find?_some hf
      simpa using this
    simp [hrx]

/-- Eviction never raises the flags back. -/
lemma evictRD_flags_mono (w : World) (x e : Nat)
    (h : (lookupRD w e).batching = false ∧ (lookupRD w e).batch_ref = false) :
    (lookupRD (evictRD w x) e).batching = false ∧
    (lookupRD (evictRD w x) e).batch_ref = false := by
  unfold lookupRD at *
  rw [find_evictRD]
  cases hf : World.find w e with
  | none => exact ⟨rfl, rfl⟩
  | some r =>
    rw [hf] at h
    by_cases hx : r.rid = x
    · simp [hx]
    · simpa [hx] using h

lemma fold_evict_flags_mono (E : List Nat) (w : World) (e : Nat)
    (h : (lookupRD w e).batching = false ∧ (lookupRD w e).batch_ref = false) :
    (lookupRD (E.foldl evictRD w) e).batching = false ∧
    (lookupRD (E.foldl evictRD w) e).batch_ref = false := by
  induction E generalizing w with
  | nil => exact h
  | cons x E ih =>
    rw [List.foldl_cons]
    exact ih _ (evictRD_flags_mono w x e h)

/-- After folding evictions over a list containing `e`, the member `e` has its
batching flag and batch back-reference cleared. -/
lemma fold_evict_flags (E : List Nat) (w : World) (e : Nat) (he : e ∈ E) :
    (lookupRD (E.foldl evictRD w) e).batching = false ∧
    (lookupRD (E.foldl evictRD w) e).batch_ref = false := by
  induction E generalizing w with
  | nil => cases he
  | cons x E ih =>
    rw [List.foldl_cons]
    rcases List.mem_cons.mp he with rfl | he'
    · exact fold_evict_flags_mono E _ e (evictRD_flags_self w e)
    · exact ih (evictRD w x) he'

/- ## Regeneration lemmas -/

lemma regenStep_set (w : World) (b : Batch) (i : Nat) :
    (Batch.regenStep w b i).render_data_set = b.render_data_set := rfl

lemma regen_foldl_set (w : World) (L : List Nat) (b : Batch) :
    (L.foldl (Batch.regenStep w) b).render_data_set = b.render_data_set := by
  induction L generalizing b with
  | nil => rfl
  | cons x L ih => rw [List.foldl_cons, ih, regenStep_set]

lemma regen_foldl_vertices (w : World) (L : List Nat) (b : Batch) :
    (L.foldl (Batch.regenStep w) b).vertices =
      b.vertices ++ (L.map (fun i => (lookupRD w i).mesh.vertices)).flatten := by
  induction L generalizing b with
  | nil => simp
  | cons x L ih =>
    rw [List.foldl_cons, ih]
    simp [Batch.regenStep, Batch.updateMesh]

lemma regen_foldl_draw_count (w : World) (L : List Nat) (b : Batch) :
    (L.foldl (Batch.regenStep w) b).draw_count = b.draw_count + L.length := by
  induction L generalizing b with
  | nil => rfl
  | cons x L ih =>
    rw [List.foldl_cons, ih]
    simp [Batch.regenStep, Batch.updateMesh]
    omega

lemma regen_foldl_matrices_len (w : World) (L : List Nat) (b : Batch) :
    (L.foldl (Batch.regenStep w) b).matrices.length = b.matrices.length + L.length := by
  induction L generalizing b with
  | nil => rfl
  | cons x L ih =>
    rw [List.foldl_cons, ih]
    simp [Batch.regenStep, Batch.updateMesh]
    omega

/- ## Claim C9 -/

/-- C9: `regenerateMeshData` re-merges every tracked member with no
eligibility or capacity re-check: afterwards `draw_count` equals the tracking
set's size, the merged vertex buffer is exactly the concatenation of every
member's vertices, and in particular every vertex of every member — whatever
its batching flag, pass shaders or size — appears in the merged buffer. -/
theorem c9_regen_merges_every_member (b : Batch) (w : World) :
    (b.regenerateMeshData w).draw_count = b.render_data_set.length ∧
    (b.regenerateMeshData w).vertices =
      (b.render_data_set.map (fun i => (lookupRD w i).mesh.vertices)).flatten ∧
    (∀ i ∈ b.render_data_set, ∀ v ∈ (lookupRD w i).mesh.vertices,
      v ∈ (b.regenerateMeshData w).vertices) := by
  unfold Batch.regenerateMeshData
  have hset : b.clearData.render_data_set = b.render_data_set := rfl
  refine ⟨?_, ?_, ?_⟩
  · rw [regen_foldl_draw_count]
    simp [Batch.clearData]
  · rw [regen_foldl_vertices]
    simp [Batch.clearData]
  · intro i hi v hv
    rw [regen_foldl_vertices]
    simp only [Batch.clearData, List.nil_append]
    exact List.mem_flatten.mpr ⟨(lookupRD w i).mesh.vertices, List.mem_map.mpr ⟨i, hi, rfl⟩, hv⟩

/-- C9 witness: a batch tracking an opt-out (unbatched) member still gets that
member's geometry merged by regeneration. -/
theorem c9_regen_merges_every_member_witness :
    ((((Batch.mkBatch 10 10).add rdC2opt).1).regenerateMeshData [rdC2opt]).draw_count =
      (((Batch.mkBatch 10 10).add rdC2opt).1).render_data_set.length ∧
    (10 ∈ ((((Batch.mkBatch 10 10).add rdC2opt).1).regenerateMeshData [rdC2opt]).vertices) := by
  have h := c9_regen_merges_every_member (((Batch.mkBatch 10 10).add rdC2opt).1) [rdC2opt]
  exact ⟨h.1, h.2.2 2 (by decide) 10 (by decide)⟩

/- ## Claim C6 -/

/-- `setupTail` never touches the tracking set or the geometry buffers; it
forces `mesh_init` and clears the dirty flag. -/
lemma setupTail_state (x : Batch) :
    (x.setupTail).render_data_set = x.render_data_set ∧
    (x.setupTail).mesh_init = true ∧
    (x.setupTail).batch_dirty = false ∧
    (x.setupTail).vertices = x.vertices := by
  unfold Batch.setupTail
  by_cases hm : x.mesh_init
  · simp [hm]
  · simp [hm, Batch.meshInit]

/-- Regeneration never changes the tracking set. -/
lemma regen_set (x : Batch) (ww : World) :
    (x.regenerateMeshData ww).render_data_set = x.render_data_set := by
  unfold Batch.regenerateMeshData
  rw [regen_foldl_set]
  rfl

/-- C6: if a tracked member `e` (or its owner) is disabled and `setupMesh` is
called while other members survive, the batch reports active and fully
regenerates: the merged vertex buffer is exactly the concatenation of the
surviving members' vertices (so any vertex of the evicted member that no
survivor shares is gone from the buffer), the evicted member's batching flag
and batch back-reference are cleared in the world, and it leaves the tracking
set. -/
theorem c6_eviction_regenerates (b : Batch) (w : World) (d : Bool) (e : Nat)
    (he : e ∈ b.render_data_set)
    (hdis : enabledIn w e = false)
    (hsurv : b.render_data_set.filter (fun i => enabledIn w i) ≠ []) :
    ((b.setupMesh w d).2.2 = true) ∧
    ((b.setupMesh w d).1).vertices =
      ((b.render_data_set.filter (fun i => enabledIn w i)).map
        (fun i => (lookupRD w i).mesh.vertices)).flatten ∧
    (∀ v ∈ (lookupRD w e).mesh.vertices,
      v ∉ ((b.render_data_set.filter (fun i => enabledIn w i)).map
            (fun i => (lookupRD w i).mesh.vertices)).flatten →
      v ∉ ((b.setupMesh w d).1).vertices) ∧
    (lookupRD ((b.setupMesh w d).2.1) e).batching = false ∧
    (lookupRD ((b.setupMesh w d).2.1) e).batch_ref = false ∧
    e ∉ ((b.setupMesh w d).1).render_data_set := by
  have hee : e ∈ b.render_data_set.filter (fun i => !(enabledIn w i)) :=
    List.mem_filter.mpr ⟨he, by simp [hdis]⟩
  have hev : b.render_data_set.filter (fun i => !(enabledIn w i)) ≠ [] :=
    fun hnil => by rw [hnil] at hee; cases hee
  have hupd : (b.render_data_set.filter (fun i => !(enabledIn w i))).isEmpty = false := by
    cases hE : b.render_data_set.filter (fun i => !(enabledIn w i)) with
    | nil => exact absurd hE hev
    | cons y ys => rfl
  have hlen : ¬ ((b.render_data_set.filter (fun i => enabledIn w i)).length = 0) := by
    intro h0
    exact hsurv (List.length_eq_zero.mp h0)
  have hflags := fold_evict_flags (b.render_data_set.filter (fun i => !(enabledIn w i))) w e hee
  simp only [Batch.setupMesh, Batch.isRenderModified]
  rw [if_neg hlen]
  simp only [hupd, Bool.not_false, Bool.or_true, if_true]
  generalize hB :
    ({ b with render_data_set := b.render_data_set.filter (fun i => enabledIn w i) }
        ).regenerateMeshData
        ((b.render_data_set.filter (fun i => !(enabledIn w i))).foldl evictRD w) = B
  have hvB : B.vertices =
      ((b.render_data_set.filter (fun i => enabledIn w i)).map
        (fun i => (lookupRD w i).mesh.vertices)).flatten := by
    rw [← hB]
    unfold Batch.regenerateMeshData
    rw [regen_foldl_vertices]
    have hfun : (fun i =>
        (lookupRD ((b.render_data_set.filter (fun i => !(enabledIn w i))).foldl evictRD w)
          i).mesh.vertices) =
        (fun i => (lookupRD w i).mesh.vertices) := by
      funext i
      rw [lookupRD_fold_evict_mesh]
    rw [hfun]
    simp [Batch.clearData]
  have hsB : B.render_data_set = b.render_data_set.filter (fun i => enabledIn w i) := by
    rw [← hB]
    unfold Batch.regenerateMeshData
    rw [regen_foldl_set]
    rfl
  have hnotmem : e ∉ b.render_data_set.filter (fun i => enabledIn w i) := by
    intro hmem
    have := (List.mem_filter.mp hmem).2
    rw [hdis] at this
    cases this
  refine ⟨trivial, ?_, ?_, hflags.1, hflags.2, ?_⟩
  · rw [(setupTail_state B).2.2.2]
    exact hvB
  · intro v _ hnot
    rw [(setupTail_state B).2.2.2, hvB]
    exact hnot
  · rw [(setupTail_state B).1, hsB]
    exact hnotmem

/-- C6 witness world: the opt-out member (rid 2) disabled, a merged member
(rid 3) still enabled. -/
def worldC6 : World :=
  [{ rdC2opt with enabled := false }, rdC2a]

/-- C6 witness batch: tracks both rid 2 and rid 3. -/
def batchC6 : Batch :=
  (((Batch.mkBatch 100 100).add rdC2opt).1.add rdC2a).1

/-- C6 witness: disabling the member with rid 2 and refreshing leaves only
rid 3's geometry and clears rid 2's flags. -/
theorem c6_eviction_regenerates_witness :
    ((batchC6.setupMesh worldC6 false).2.2 = true) ∧
    (10 ∉ ((batchC6.setupMesh worldC6 false).1).vertices) ∧
    (lookupRD ((batchC6.setupMesh worldC6 false).2.1) 2).batching = false ∧
    (2 ∉ ((batchC6.setupMesh worldC6 false).1).render_data_set) := by
  have h := c6_eviction_regenerates batchC6 worldC6 false 2
    (by decide) (by decide) (by decide)
  exact ⟨h.1, h.2.2.1 10 (by decide) (by decide), h.2.2.2.1, h.2.2.2.2.2⟩

/- ## Claim C7 -/

/-- Batch-state equality "apart from the capacity fields" (the claim's notion:
`freed` is the external pool-notification marker, not batch state, so it is
not compared; every stored field other than the two capacities is). -/
def stateEqModCaps (a c : Batch) : Prop :=
  a.draw_count = c.draw_count ∧ a.vertex_count = c.vertex_count ∧
  a.index_count = c.index_count ∧ a.index_offset = c.index_offset ∧
  a.vertices = c.vertices ∧ a.normals = c.normals ∧ a.tex_coords = c.tex_coords ∧
  a.matrix_indices = c.matrix_indices ∧ a.indices = c.indices ∧
  a.matrices = c.matrices ∧ a.matrix_index_map = c.matrix_index_map ∧
  a.render_data_set = c.render_data_set ∧ a.renderdata = c.renderdata ∧
  a.material = c.material ∧ a.mesh = c.mesh ∧ a.mesh_init = c.mesh_init ∧
  a.not_batched = c.not_batched ∧ a.batch_dirty = c.batch_dirty

instance (a c : Batch) : Decidable (stateEqModCaps a c) := by
  unfold stateEqModCaps; infer_instance

/-- Batch-state equality apart from the capacities AND the fields `resetBatch`
never clears: the `not_batched` flag, the cached `material_` pointer and the
previously built merged-mesh object. -/
def stateEqModCapsStatus (a c : Batch) : Prop :=
  a.draw_count = c.draw_count ∧ a.vertex_count = c.vertex_count ∧
  a.index_count = c.index_count ∧ a.index_offset = c.index_offset ∧
  a.vertices = c.vertices ∧ a.normals = c.normals ∧ a.tex_coords = c.tex_coords ∧
  a.matrix_indices = c.matrix_indices ∧ a.indices = c.indices ∧
  a.matrices = c.matrices ∧ a.matrix_index_map = c.matrix_index_map ∧
  a.render_data_set = c.render_data_set ∧ a.renderdata = c.renderdata ∧
  a.mesh_init = c.mesh_init ∧ a.batch_dirty = c.batch_dirty

instance (a c : Batch) : Decidable (stateEqModCapsStatus a c) := by
  unfold stateEqModCapsStatus; infer_instance

/-- C7 counterexample batch: tracks one opt-out member (rid 2), which sets
`not_batched_` and caches its material. -/
def batchC7 : Batch := ((Batch.mkBatch 10 10).add rdC2opt).1

/-- C7 counterexample world: the sole member disabled. -/
def worldC7 : World := [{ rdC2opt with enabled := false }]

/-- C7 is false as stated: evicting the last member does reset the batch and
report inactive, but the resulting state is NOT equal to a freshly constructed
batch modulo capacities — `clearData`/`resetBatch` never clear `not_batched_`
(still `true`) nor the cached `material_`. -/
theorem c7_reset_keeps_status_flags :
    (batchC7.setupMesh worldC7 false).2.2 = false ∧
    ¬ stateEqModCaps ((batchC7.setupMesh worldC7 false).1) (Batch.mkBatch 10 10) ∧
    ((batchC7.setupMesh worldC7 false).1).not_batched = true ∧
    (Batch.mkBatch 10 10).not_batched = false := by
  decide

/-- C7 (amended): if the eviction scan empties the tracking set, `setupMesh`
resets the batch (all buffers and counters cleared, tracking set empty, owned
prototype destroyed, pool owner notified) and reports inactive; the resulting
state equals a freshly constructed batch of the same capacities apart from the
fields reset never clears: the `not_batched` flag, the cached material and the
stale merged-mesh object. -/
theorem c7_empty_resets_batch (b : Batch) (w : World) (d : Bool)
    (h : b.render_data_set.filter (fun i => enabledIn w i) = []) :
    (b.setupMesh w d).2.2 = false ∧
    stateEqModCapsStatus ((b.setupMesh w d).1)
      (Batch.mkBatch b.vertex_limit b.indices_limit) ∧
    ((b.setupMesh w d).1).renderdata = none ∧
    ((b.setupMesh w d).1).freed = true ∧
    ((b.setupMesh w d).1).vertex_limit = b.vertex_limit ∧
    ((b.setupMesh w d).1).indices_limit = b.indices_limit := by
  simp only [Batch.setupMesh, Batch.isRenderModified, h, List.length_nil, if_pos]
  refine ⟨trivial, ?_, rfl, rfl, rfl, rfl⟩
  unfold stateEqModCapsStatus Batch.resetBatch Batch.clearData Batch.mkBatch
  exact ⟨rfl, rfl, rfl, rfl, rfl, rfl, rfl, rfl, rfl, rfl, rfl, rfl, rfl, rfl, rfl⟩

/-- C7 witness: the counterexample scenario satisfies the amended theorem. -/
theorem c7_empty_resets_batch_witness :
    (batchC7.setupMesh worldC7 false).2.2 = false ∧
    stateEqModCapsStatus ((batchC7.setupMesh worldC7 false).1) (Batch.mkBatch 10 10) := by
  have h := c7_empty_resets_batch batchC7 worldC7 false (by decide)
  exact ⟨h.1, h.2.1⟩

/- ## Claim C8 -/

/-- Dissection of a `setupMesh` call that reports active: the tracking set has
been filtered to the enabled members (and is nonempty), the world has had the
disabled members evicted, the merged mesh is initialized and the dirty flag is
down. -/
lemma setupMesh_true_fields (b : Batch) (w : World) (d : Bool) (b1 : Batch) (w1 : World)
    (h : b.setupMesh w d = (b1, w1, true)) :
    b1.render_data_set = b.render_data_set.filter (fun i => enabledIn w i) ∧
    w1 = (b.render_data_set.filter (fun i => !(enabledIn w i))).foldl evictRD w ∧
    b1.mesh_init = true ∧ b1.batch_dirty = false ∧
    b1.render_data_set ≠ [] := by
  simp only [Batch.setupMesh, Batch.isRenderModified] at h
  by_cases h1 : (b.render_data_set.filter (fun i => enabledIn w i)).length = 0
  · rw [if_pos h1] at h
    simp at h
  · rw [if_neg h1] at h
    have hne : b.render_data_set.filter (fun i => enabledIn w i) ≠ [] :=
      fun hn => h1 (by rw [hn]; rfl)
    have hb := congrArg Prod.fst h
    have hw := congrArg Prod.fst (congrArg Prod.snd h)
    dsimp only at hb hw
    subst hb hw
    refine ⟨?_, rfl, (setupTail_state _).2.1, (setupTail_state _).2.2.1, ?_⟩
    · rw [(setupTail_state _).1]
      split
      · rw [regen_set]
      · rfl
    · rw [(setupTail_state _).1]
      split
      · rw [regen_set]
        exact hne
      · exact hne

/-- C8: `setupMesh` is idempotent: if a call reported active, an immediate
second call with the dirty argument false and no intervening membership or
world change performs no regeneration and no mesh rebuild — it returns the
identical batch and world, still active, with the merged mesh still
initialized. -/
theorem c8_setupMesh_idempotent (b : Batch) (w : World) (d : Bool) (b1 : Batch) (w1 : World)
    (h : b.setupMesh w d = (b1, w1, true)) :
    b1.setupMesh w1 false = (b1, w1, true) := by
  obtain ⟨hset, hw, hmi, hbd, hne⟩ := setupMesh_true_fields b w d b1 w1 h
  have hen : ∀ i ∈ b1.render_data_set, enabledIn w1 i = true := by
    intro i hi
    rw [hset] at hi
    have hi2 := (List.mem_filter.mp hi).2
    rw [hw, enabledIn_fold_evict]
    exact hi2
  have hfilter : b1.render_data_set.filter (fun i => enabledIn w1 i) = b1.render_data_set :=
    List.filter_eq_self.mpr hen
  have hevict : b1.render_data_set.filter (fun i => !(enabledIn w1 i)) = [] := by
    rw [List.filter_eq_nil_iff]
    intro i hi
    simp [hen i hi]
  have htail : b1.setupTail = b1 := by
    unfold Batch.setupTail
    have hbd' : ({ b1 with batch_dirty := false } : Batch) = b1 := by
      cases b1
      simp_all
    rw [hbd']
    simp [hmi]
  simp only [Batch.setupMesh, Batch.isRenderModified, hfilter, hevict]
  rw [if_neg (fun h0 => hne (List.length_eq_zero.mp h0))]
  simp [htail]

/-- C8 witness batch/world: one merged, enabled member (rid 3). -/
def batchC8 : Batch := ((Batch.mkBatch 100 100).add rdC2a).1

def worldC8 : World := [rdC2a]

/-- C8 witness: after one active refresh of the concrete one-member batch, a
second refresh with dirty = false returns the identical state. -/
theorem c8_setupMesh_idempotent_witness :
    ((batchC8.setupMesh worldC8 false).1).setupMesh
        ((batchC8.setupMesh worldC8 false).2.1) false =
      ((batchC8.setupMesh worldC8 false).1, (batchC8.setupMesh worldC8 false).2.1, true) :=
  c8_setupMesh_idempotent batchC8 worldC8 false
    (batchC8.setupMesh worldC8 false).1 (batchC8.setupMesh worldC8 false).2.1 (by rfl)

end GVRfBatch
